import Mathlib

/-!
Shallow embedding of `src/app/utils/customerDataUtils.js` (pet-profile app):
the field sanitizer, GID extractor, completeness scorer, the active
`fetchCustomersWithPagination` collector (segment-member variant, lines
296-398), and `generateDimensionData`.

JavaScript scalars are embedded as `JSValue`; truthiness follows JS rules.
Calling a string method on a truthy non-string (a TypeError in JS) is
embedded as `Option.none` where the source can reach such a value.
-/

/-- A JavaScript scalar value as it occurs in this code base. -/
inductive JSValue where
  | null
  | undefined
  | str (s : String)
  | num (n : Int)
  | bool (b : Bool)
  deriving DecidableEq, Repr

/-- JS truthiness for the embedded scalars. -/
def jsTruthy : JSValue → Bool
  | .null => false
  | .undefined => false
  | .str s => !(s == "")
  | .num n => !(n == 0)
  | .bool b => b

/-- Embeds the JS typeof-string test. -/
def isString : JSValue → Bool
  | .str _ => true
  | _ => false

/-- Embeds the JS string method trim: strip whitespace characters from
both ends.  (Defined over character lists so that it evaluates by kernel
reduction.) -/
def jsTrim (s : String) : String :=
  String.mk (((s.data.dropWhile Char.isWhitespace).reverse.dropWhile
    Char.isWhitespace).reverse)

/-- Embeds `sanitizeMetafieldValue` (source lines 66-69): a falsy or
non-string input yields the empty string, a string input is trimmed. -/
def sanitizeMetafieldValue (value : JSValue) : String :=
  if !jsTruthy value || !isString value then ""
  else match value with
    | .str s => jsTrim s
    | _ => ""

/-! ### Regex machinery for `extractIdFromGid` (source lines 16-36)

The three patterns and the fallback are literal-prefix / character-class
scans; we embed them directly over character lists. -/

/-- Remove the literal `lit` from the front of `cs`, if it is there. -/
def dropLit : List Char → List Char → Option (List Char)
  | [], cs => some cs
  | _ :: _, [] => none
  | l :: ls, c :: cs => if c = l then dropLit ls cs else none

/-- JS `\w`: ASCII letter, digit or underscore. -/
def isWordChar (c : Char) : Bool :=
  c.isAlphanum || c = '_'

/-- Match `lit` followed by one or more digits at the head of `cs`;
return the (greedy) captured digit run. -/
def litDigitsHere (lit : List Char) (cs : List Char) : Option (List Char) :=
  match dropLit lit cs with
  | none => none
  | some rest =>
      let ds := rest.takeWhile Char.isDigit
      if ds.isEmpty then none else some ds

/-- Leftmost match of a position matcher over the string, like an
unanchored JS regex search. -/
def searchWith (f : List Char → Option (List Char)) : List Char → Option (List Char)
  | [] => f []
  | c :: cs =>
      match f (c :: cs) with
      | some ds => some ds
      | none => searchWith f cs

/-- The literal part of `/gid:\/\/shopify\/CustomerSegmentMember\/(\d+)/`. -/
def csmLit : List Char := "gid://shopify/CustomerSegmentMember/".data

/-- The literal part of `/gid:\/\/shopify\/Customer\/(\d+)/`. -/
def custLit : List Char := "gid://shopify/Customer/".data

/-- The literal part of `/gid:\/\/shopify\/(\w+)\/(\d+)/`. -/
def gidRootLit : List Char := "gid://shopify/".data

/-- Match `/gid:\/\/shopify\/(\w+)\/(\d+)/` at the head of `cs`; the code
keeps the last captured group, i.e. the digit run.  Since `/` is not a
word character, the greedy `\w+` can only succeed on the maximal word-char
run followed by a literal slash. -/
def wordDigitsHere (cs : List Char) : Option (List Char) :=
  match dropLit gidRootLit cs with
  | none => none
  | some rest =>
      let ws := rest.takeWhile isWordChar
      if ws.isEmpty then none
      else match rest.drop ws.length with
        | d :: rest2 =>
            if d = '/' then
              let ds := rest2.takeWhile Char.isDigit
              if ds.isEmpty then none else some ds
            else none
        | [] => none

/-- The fallback `/(\d+)$/`: the maximal trailing digit run, if any. -/
def trailingDigits (cs : List Char) : Option (List Char) :=
  let ds := cs.reverse.takeWhile Char.isDigit
  if ds.isEmpty then none else some ds.reverse

/-- `extractIdFromGid` (source lines 16-36).  Every return path of the JS
function yields a string, so the embedding returns `String`. -/
def extractIdFromGid (gid : JSValue) : String :=
  if !jsTruthy gid || !isString gid then ""
  else match gid with
    | .str s =>
        let cs := s.data
        match searchWith (litDigitsHere csmLit) cs with
        | some ds => String.mk ds
        | none =>
          match searchWith (litDigitsHere custLit) cs with
          | some ds => String.mk ds
          | none =>
            match searchWith wordDigitsHere cs with
            | some ds => String.mk ds
            | none =>
              match trailingDigits cs with
              | some ds => String.mk ds
              | none => s
    | _ => ""

/-! ### Completeness scorer (source lines 76-93)

`isCompleteProfile` and `getProfileCompleteness` read the five profile
attributes off a customer and test `value && value.trim() !== ''`.
Calling `.trim()` on a truthy non-string would throw in JS, so the field
test is embedded as `Option Bool` (`none` = TypeError). -/

/-- Embeds the JS method call of trim on a value: defined only on strings. -/
def jsTrimCall : JSValue → Option String
  | .str s => some (jsTrim s)
  | _ => none

/-- Embeds the per-field test: the value is truthy and trims to a non-empty string. -/
def fieldComplete (v : JSValue) : Option Bool :=
  if !jsTruthy v then some false
  else match jsTrimCall v with
    | some t => some (!(t == ""))
    | none => none

/-- Embeds the every-loop over the required fields: short-circuits on
false, aborts on a thrown TypeError. -/
def everyOpt : List JSValue → Option Bool
  | [] => some true
  | v :: vs =>
      match fieldComplete v with
      | none => none
      | some false => some false
      | some true => everyOpt vs

/-- Embeds the filter-then-length count over the fields: evaluates the
test left to right, aborting on a thrown TypeError. -/
def countCompleted : List JSValue → Option Nat
  | [] => some 0
  | v :: vs =>
      match fieldComplete v with
      | none => none
      | some b => (countCompleted vs).map (fun n => (if b then 1 else 0) + n)

/-- One assembled customer record, as produced by the active
`fetchCustomersWithPagination` (source lines 353-363). -/
structure Customer where
  id : String
  firstName : JSValue
  lastName : JSValue
  email : JSValue
  pet_type : JSValue
  stress_level : JSValue
  drug_usage : JSValue
  pet_age : JSValue
  pet_weight : JSValue
  deriving DecidableEq, Repr

/-- The fixed ordered five-field checklist shared by the scorer functions. -/
def profileValues (c : Customer) : List JSValue :=
  [c.pet_type, c.stress_level, c.drug_usage, c.pet_age, c.pet_weight]

/-- Embeds `isCompleteProfile` (source lines 76-82). -/
def isCompleteProfile (c : Customer) : Option Bool :=
  everyOpt (profileValues c)

/-- Embeds the rounding of the completeness percentage for a count `k`
of completed fields: round-half-up of `k * 100 / 5`, that is
`(200 * k + 5) / 10` in floor division.  (The IEEE-754 evaluation in the
source agrees with the exact rational on every `k` in `0..5`.) -/
def jsRoundPctOf5 (k : Nat) : Nat :=
  (200 * k + 5) / 10

/-- Embeds `getProfileCompleteness` (source lines 89-93). -/
def getProfileCompleteness (c : Customer) : Option Nat :=
  (countCompleted (profileValues c)).map jsRoundPctOf5

/-! ### The active paginated collector (source lines 296-398)

The remote is embedded as the sequence of responses it will give, one per
issued request.  Exhausting the sequence while the loop condition still
holds — a scenario outside the simulated remote — yields `none`; every
modeled run yields `some`.  The `try/catch` is embedded by the error
branches returning the catch block's result instead of propagating; the
issued requests are logged so that theorems can speak about what was sent
over the network. -/

/-- One raw `customerSegmentMembers` edge node.  GraphQL types metafield
`value` and `emailAddress` as `String`, so an optional-chain result is
either absent or a string; `Option String` captures `node.x?.value`. -/
structure MetaNode where
  id : JSValue
  firstName : JSValue
  lastName : JSValue
  emailAddress : Option String
  pet_type : Option String
  stress_level : Option String
  drug_usage : Option String
  pet_age : Option String
  pet_weight : Option String
  deriving DecidableEq, Repr

/-- Embeds the optional-chain-or-null idiom of the source: an absent or
empty value becomes null, a non-empty string passes through unchanged. -/
def orNull : Option String → JSValue
  | none => .null
  | some s => if s == "" then .null else .str s

/-- The record assembly of the active collector (source lines 353-363):
note the profile attributes are `node.x?.value || null`, not
`sanitizeMetafieldValue(...)`. -/
def assembleSegmentNode (n : MetaNode) : Customer where
  id := extractIdFromGid n.id
  firstName := n.firstName
  lastName := n.lastName
  email := orNull n.emailAddress
  pet_type := orNull n.pet_type
  stress_level := orNull n.stress_level
  drug_usage := orNull n.drug_usage
  pet_age := orNull n.pet_age
  pet_weight := orNull n.pet_weight

/-- One page payload: `edges` plus `pageInfo { hasNextPage endCursor }`. -/
structure Page where
  entries : List MetaNode
  hasNextPage : Bool
  endCursor : Option String
  deriving DecidableEq, Repr

/-- What the simulated remote does on one request: a successful payload,
a payload carrying `errors` (the code then throws its fixed message), or
a transport-level throw with the given message. -/
inductive RemoteResponse where
  | page (p : Page)
  | queryErrors
  | transportError (msg : String)
  deriving DecidableEq, Repr

/-- One issued page request: the `first` variable and the `after` cursor. -/
structure PageRequest where
  first : Nat
  after : Option String
  deriving DecidableEq, Repr

/-- Embeds the `paginationInfo` of the returned object. -/
structure PaginationInfo where
  hasMore : Bool
  totalFetched : Nat
  maxCustomers : Nat
  deriving DecidableEq, Repr

/-- The object returned by `fetchCustomersWithPagination`, plus the log of
issued requests (instrumentation of the network effect). -/
structure FetchResult where
  customers : List Customer
  totalCustomers : Nat
  error : Option String
  paginationInfo : PaginationInfo
  requests : List PageRequest
  deriving DecidableEq, Repr

/-- The result built by the `catch` block (source lines 387-397). -/
def catchResult (maxCustomers : Nat) (msg : String) (reqs : List PageRequest) :
    FetchResult where
  customers := []
  totalCustomers := 0
  error := some msg
  paginationInfo := { hasMore := false, totalFetched := 0, maxCustomers := maxCustomers }
  requests := reqs

/-- The `while (hasNextPage && totalFetched < maxCustomers)` loop
(source lines 309-373), one recursive step per remote round-trip. -/
def fetchGo (maxCustomers batchSize : Nat) :
    List RemoteResponse → List Customer → Bool → Option String → Nat →
    List PageRequest → Option FetchResult
  | responses, allCustomers, hasNextPage, cursor, totalFetched, reqs =>
    if hasNextPage && decide (totalFetched < maxCustomers) then
      match responses with
      | [] => none
      | r :: rest =>
          let reqs2 := reqs ++ [{ first := batchSize, after := cursor }]
          match r with
          | .queryErrors =>
              some (catchResult maxCustomers "Failed to fetch segment customer data" reqs2)
          | .transportError msg =>
              some (catchResult maxCustomers msg reqs2)
          | .page page =>
              let customers := page.entries.map assembleSegmentNode
              fetchGo maxCustomers batchSize rest (allCustomers ++ customers)
                page.hasNextPage page.endCursor (totalFetched + customers.length) reqs2
    else
      some
        { customers := allCustomers
          totalCustomers := allCustomers.length
          error := none
          paginationInfo :=
            { hasMore := hasNextPage, totalFetched := totalFetched,
              maxCustomers := maxCustomers }
          requests := reqs }

/-- Embeds `fetchCustomersWithPagination` (source lines 296-398); in the
app it is called with `maxCustomers = 1000`, `batchSize = 100`. -/
def fetchCustomersWithPagination (remote : List RemoteResponse)
    (maxCustomers batchSize : Nat) : Option FetchResult :=
  fetchGo maxCustomers batchSize remote [] true none 0 []

/-! ### Dimensional aggregator `generateDimensionData` (source lines 406-459) -/

/-- One chart entry `{ name, customers }`; `parseInt` applied to the
`.length` of a filter result is the identity on the count. -/
structure DimEntry where
  name : String
  customers : Nat
  deriving DecidableEq, Repr

/-- Embeds a filter-then-length count over the customer list. -/
def countBy (p : Customer → Bool) (cs : List Customer) : Nat :=
  (cs.filter p).length

/-- Substring containment over character lists (JS `String.includes`). -/
def hasSub (pat : List Char) : List Char → Bool
  | [] => pat.isEmpty
  | c :: cs => (dropLit pat (c :: cs)).isSome || hasSub pat cs

/-- Embeds the Allergies test of the source: the drug-usage value is
truthy and its lower-cased form contains the fixed key as a substring.
A falsy value short-circuits to a non-match; the
attribute of a collector-produced record is null or a string, so the
string methods apply whenever the guard passes. -/
def allergiesHit : JSValue → Bool
  | .str s => !(s == "") && hasSub "allergies".data (s.data.map Char.toLower)
  | _ => false

/-- Embeds the strict-equality comparison of an attribute with a category literal. -/
def strictEq (v : JSValue) (s : String) : Bool :=
  v == .str s

/-- The `petAgeData` list (source lines 417-421). -/
def petAgeData (cs : List Customer) : List DimEntry :=
  [ { name := "1-6", customers := countBy (fun c => strictEq c.pet_age "1-6") cs },
    { name := "7-12", customers := countBy (fun c => strictEq c.pet_age "7-12") cs },
    { name := "13-20", customers := countBy (fun c => strictEq c.pet_age "13-20") cs } ]

/-- The `drugUsageData` list (source lines 423-430): six fixed categories,
"Allergies" by case-insensitive substring, the rest by strict equality;
zero-count entries are filtered out. -/
def drugUsageData (cs : List Customer) : List DimEntry :=
  ([ { name := "Allergies", customers := countBy (fun c => allergiesHit c.drug_usage) cs },
     { name := "Gut Health and Immune Support",
       customers := countBy (fun c => strictEq c.drug_usage "Gut Health and Immune Support") cs },
     { name := "Hip and Joint Health",
       customers := countBy (fun c => strictEq c.drug_usage "Hip and Joint Health") cs },
     { name := "Longevity", customers := countBy (fun c => strictEq c.drug_usage "Longevity") cs },
     { name := "Anxiety", customers := countBy (fun c => strictEq c.drug_usage "Anxiety") cs },
     { name := "Skin or Paw Irritation",
       customers := countBy (fun c => strictEq c.drug_usage "Skin or Paw Irritation") cs }
   ]).filter (fun d => decide (0 < d.customers))

/-- The `petWeightData` list (source lines 432-436). -/
def petWeightData (cs : List Customer) : List DimEntry :=
  [ { name := "Under 20lbs", customers := countBy (fun c => strictEq c.pet_weight "under 20lbs") cs },
    { name := "20-50lbs", customers := countBy (fun c => strictEq c.pet_weight "20-50lbs") cs },
    { name := "50+lbs", customers := countBy (fun c => strictEq c.pet_weight "50+lbs") cs } ]

/-- The `petSpeciesData` list (source lines 438-442). -/
def petSpeciesData (cs : List Customer) : List DimEntry :=
  [ { name := "Dog", customers := countBy (fun c => strictEq c.pet_type "Dog") cs },
    { name := "Cat", customers := countBy (fun c => strictEq c.pet_type "Cat") cs },
    { name := "Small Animal", customers := countBy (fun c => strictEq c.pet_type "small animal") cs } ]

/-- The `stressLevelData` list (source lines 444-450); zero-count entries
are filtered out. -/
def stressLevelData (cs : List Customer) : List DimEntry :=
  ([ { name := "Low", customers := countBy (fun c => strictEq c.stress_level "low discomfort or stress") cs },
     { name := "2", customers := countBy (fun c => strictEq c.stress_level "2") cs },
     { name := "Moderate", customers := countBy (fun c => strictEq c.stress_level "moderate discomfort or stress") cs },
     { name := "4", customers := countBy (fun c => strictEq c.stress_level "4") cs },
     { name := "Severe", customers := countBy (fun c => strictEq c.stress_level "severe discomfort or stress") cs }
   ]).filter (fun d => decide (0 < d.customers))

/-- The five per-attribute chart series. -/
structure DimensionData where
  pet_age : List DimEntry
  drug_usage : List DimEntry
  pet_weight : List DimEntry
  pet_type : List DimEntry
  stress_level : List DimEntry
  deriving DecidableEq, Repr

/-- Embeds `generateDimensionData` (source lines 406-459). -/
def generateDimensionData (customers : List Customer) : DimensionData :=
  if customers.length = 0 then
    { pet_age := [], drug_usage := [], pet_weight := [], pet_type := [], stress_level := [] }
  else
    { pet_age := petAgeData customers
      drug_usage := drugUsageData customers
      pet_weight := petWeightData customers
      pet_type := petSpeciesData customers
      stress_level := stressLevelData customers }

/-! ### Simulated remotes and sample records used by the theorems -/

/-- A segment-member node all of whose nullable fields are absent. -/
def blankNode : MetaNode :=
  ⟨.null, .null, .null, none, none, none, none, none, none⟩

/-- The customer assembled from `blankNode`. -/
def blankCustomer : Customer :=
  ⟨"", .null, .null, .null, .null, .null, .null, .null, .null⟩

/-- One simulated page of 100 entries with the given more-pages flag. -/
def simPage (b : Bool) : Page :=
  ⟨List.replicate 100 blankNode, b, some "cur"⟩

/-- The simulated remote of the spec scenario: 10 pages of 100 entries. -/
def tenPages : List RemoteResponse :=
  (List.range 10).map (fun i => .page (simPage (decide (i < 9))))

/-- A simulated remote holding a single final page of 5 entries. -/
def smallRemote : List RemoteResponse :=
  [.page ⟨List.replicate 5 blankNode, false, none⟩]

/-- The result the collector produces on `smallRemote` with cap 1000 and
page size 300. -/
def smallResult : FetchResult :=
  { customers := List.replicate 5 blankCustomer
    totalCustomers := 5
    error := none
    paginationInfo := { hasMore := false, totalFetched := 5, maxCustomers := 1000 }
    requests := [{ first := 300, after := none }] }

/-- A simulated remote whose second page request throws a transport error. -/
def errRemote : List RemoteResponse :=
  [.page (simPage true), .transportError "network down"]

/-- The result the collector produces on `errRemote` with cap 1000 and
page size 100. -/
def errResult : FetchResult :=
  catchResult 1000 "network down"
    [{ first := 100, after := none }, { first := 100, after := some "cur" }]

/-- A segment-member node whose five profile metafields are all absent. -/
def absentNode : MetaNode :=
  ⟨.str "gid://shopify/CustomerSegmentMember/1", .null, .null,
    none, none, none, none, none, none⟩

/-- A segment-member node whose species metafield value has surrounding
whitespace. -/
def untrimmedNode : MetaNode :=
  ⟨.str "gid://shopify/CustomerSegmentMember/2", .null, .null,
    none, some "  Dog  ", none, none, none, none⟩

/-- A one-page simulated remote serving `absentNode` and `untrimmedNode`. -/
def c2Remote : List RemoteResponse :=
  [.page ⟨[absentNode, untrimmedNode], false, none⟩]

/-- A record whose drug-usage value contains ALLERGIES in mixed case. -/
def recA : Customer :=
  ⟨"1", .null, .null, .null, .null, .null, .str "Seasonal ALLERGIES flare", .null, .null⟩

/-- A record whose drug-usage value is the word allergy (no substring hit). -/
def recB : Customer :=
  ⟨"2", .null, .null, .null, .null, .null, .str "allergy", .null, .null⟩

/-- A record whose drug-usage value is anxiety in the wrong case. -/
def recC : Customer :=
  ⟨"3", .null, .null, .null, .null, .null, .str "anxiety", .null, .null⟩

/-- A record with all five profile attributes set to non-blank strings. -/
def fullCustomer : Customer :=
  ⟨"4", .null, .null, .null, .str "Dog", .str "2", .str "Anxiety", .str "1-6",
    .str "20-50lbs"⟩

/-! ### Helper lemmas -/

/-- A string-typed field always evaluates to a defined per-field test. -/
lemma fieldComplete_of_isString (v : JSValue) (hv : isString v = true) :
    ∃ b : Bool, fieldComplete v = some b := by
  cases v with
  | str s =>
      by_cases hs : s = ""
      · subst hs; exact ⟨false, rfl⟩
      · refine ⟨!(jsTrim s == ""), ?_⟩
        simp [fieldComplete, jsTruthy, jsTrimCall, hs]
  | null => simp [isString] at hv
  | undefined => simp [isString] at hv
  | num n => simp [isString] at hv
  | bool b => simp [isString] at hv

/-- Over string-typed fields, the count of completed fields is defined,
bounded by the field count, and the every-test succeeds exactly when the
count is full. -/
lemma countCompleted_strings (vs : List JSValue)
    (h : ∀ v ∈ vs, isString v = true) :
    ∃ k, countCompleted vs = some k ∧ k ≤ vs.length ∧
      (everyOpt vs = some true ↔ k = vs.length) := by
  induction vs with
  | nil => exact ⟨0, rfl, Nat.le_refl 0, by simp [everyOpt, countCompleted]⟩
  | cons v vs ih =>
      have hv : isString v = true := h v (List.mem_cons_self v vs)
      obtain ⟨k, hk, hkle, hiff⟩ := ih (fun w hw => h w (List.mem_cons_of_mem v hw))
      obtain ⟨b, hb⟩ := fieldComplete_of_isString v hv
      cases b with
      | false =>
          refine ⟨k, ?_, ?_, ?_⟩
          · simp [countCompleted, hb, hk]
          · exact Nat.le_succ_of_le hkle
          · have hev : everyOpt (v :: vs) = some false := by
              simp [everyOpt, hb]
            rw [hev]
            simp only [List.length_cons]
            constructor
            · intro hcontra; cases hcontra
            · intro hcontra; omega
      | true =>
          refine ⟨1 + k, ?_, ?_, ?_⟩
          · simp [countCompleted, hb, hk]
          · simpa [Nat.add_comm] using Nat.succ_le_succ hkle
          · have hev : everyOpt (v :: vs) = everyOpt vs := by
              simp [everyOpt, hb]
            rw [hev, hiff]
            simp only [List.length_cons]
            omega

/-- Every request the collector loop appends to its log carries the
configured batch size. -/
lemma fetchGo_requests (maxc bs : Nat) :
    ∀ (responses : List RemoteResponse) (acc : List Customer) (hn : Bool)
      (cur : Option String) (tf : Nat) (reqs : List PageRequest)
      (r : FetchResult),
      fetchGo maxc bs responses acc hn cur tf reqs = some r →
      ∀ q ∈ r.requests, q ∈ reqs ∨ q.first = bs := by
  intro responses
  induction responses with
  | nil =>
      intro acc hn cur tf reqs r hr q hq
      rw [fetchGo] at hr
      split at hr
      · cases hr
      · cases hr
        exact Or.inl hq
  | cons resp rest ih =>
      intro acc hn cur tf reqs r hr q hq
      rw [fetchGo] at hr
      split at hr
      · cases resp with
        | queryErrors =>
            cases hr
            rcases List.mem_append.mp hq with hql | hqr
            · exact Or.inl hql
            · right
              rcases List.mem_singleton.mp hqr with rfl
              rfl
        | transportError msg =>
            cases hr
            rcases List.mem_append.mp hq with hql | hqr
            · exact Or.inl hql
            · right
              rcases List.mem_singleton.mp hqr with rfl
              rfl
        | page page =>
            have := ih _ _ _ _ _ _ hr q hq
            rcases this with hmem | hfirst
            · rcases List.mem_append.mp hmem with hql | hqr
              · exact Or.inl hql
              · right
                rcases List.mem_singleton.mp hqr with rfl
                rfl
            · exact Or.inr hfirst
      · cases hr
        exact Or.inl hq

/-- Whenever the collector returns a populated error, the rest of the
result is the shape built by the catch block: no records, no more-pages
flag, zero counters. -/
lemma fetchGo_error (maxc bs : Nat) :
    ∀ (responses : List RemoteResponse) (acc : List Customer) (hn : Bool)
      (cur : Option String) (tf : Nat) (reqs : List PageRequest)
      (r : FetchResult),
      fetchGo maxc bs responses acc hn cur tf reqs = some r →
      r.error ≠ none →
      r.customers = [] ∧ r.paginationInfo.hasMore = false ∧
        r.totalCustomers = 0 ∧ r.paginationInfo.totalFetched = 0 := by
  intro responses
  induction responses with
  | nil =>
      intro acc hn cur tf reqs r hr herr
      rw [fetchGo] at hr
      split at hr
      · cases hr
      · cases hr
        simp at herr
  | cons resp rest ih =>
      intro acc hn cur tf reqs r hr herr
      rw [fetchGo] at hr
      split at hr
      · cases resp with
        | queryErrors =>
            cases hr
            exact ⟨rfl, rfl, rfl, rfl⟩
        | transportError msg =>
            cases hr
            exact ⟨rfl, rfl, rfl, rfl⟩
        | page page =>
            exact ih _ _ _ _ _ _ hr herr
      · cases hr
        simp at herr

/-! ### Claim theorems -/

set_option maxRecDepth 40000 in
/-- C1 (counterexample): on the simulated remote with 10 pages of 100
entries each and cap 250, the collector returns 300 records, not the 250
the claim states, because no round applies min(pageSize, cap - fetched):
each of the three issued requests asks for the full page size of 100. -/
theorem collect_cap250_returns_300_not_250 :
    (fetchCustomersWithPagination tenPages 250 100).map
        (fun r => (r.customers.length, r.paginationInfo.hasMore)) =
      some (300, true) ∧ (300 : Nat) ≠ 250 := by
  exact ⟨by decide, by decide⟩

set_option maxRecDepth 40000 in
/-- C1 (amended): every round requests the full page size (100, with no
min against the 50 remaining under the cap on the third round), the loop
stops at the first page boundary at or past the cap, and on the 10-pages
by-100 remote with cap 250 the collector returns 300 records with
paginationInfo.hasMore = true. -/
theorem collect_cap250_overshoots_to_page_boundary :
    (fetchCustomersWithPagination tenPages 250 100).map
        (fun r => (r.customers.length, r.paginationInfo.hasMore,
                   r.requests.map PageRequest.first)) =
      some (300, true, [100, 100, 100]) := by
  decide

/-- C3 (counterexample): with pageSize 300 the single issued page request
carries first = 300 — nothing clamps it to the remote ceiling of 250
before the request is issued. -/
theorem collect_pageSize300_request_not_clamped :
    (fetchCustomersWithPagination smallRemote 1000 300).map
        (fun r => r.requests.map PageRequest.first) = some [300] ∧
    (300 : Nat) ≠ 250 := by
  exact ⟨by decide, by decide⟩

/-- C3 (amended): for every pageSize greater than 250 the collector
performs no clamping at all: every issued page request carries exactly
the given pageSize (in particular never 250); the oversize value is
passed through silently rather than surfaced as an error. -/
theorem collect_never_clamps_pageSize (bs : Nat) (hbs : 250 < bs)
    (remote : List RemoteResponse) (maxc : Nat) (r : FetchResult)
    (h : fetchCustomersWithPagination remote maxc bs = some r) :
    ∀ q ∈ r.requests, q.first = bs ∧ q.first ≠ 250 := by
  intro q hq
  rcases fetchGo_requests maxc bs remote [] true none 0 [] r h q hq with h0 | h1
  · cases h0
  · exact ⟨h1, by omega⟩

/-- C3 witness: instantiating the amended no-clamping theorem on the
concrete run with pageSize 300 over `smallRemote`. -/
theorem collect_never_clamps_pageSize_witness :
    PageRequest.first { first := 300, after := none } = 300 ∧
    PageRequest.first { first := 300, after := none } ≠ 250 :=
  collect_never_clamps_pageSize 300 (by decide) smallRemote 1000 smallResult
    (by decide) { first := 300, after := none } (by decide)

/-- C5: with cap 0 the loop condition fails immediately, so for every
simulated remote and page size the collector returns the empty result —
no records, a null error — and its request log is empty: no network call
is ever issued. -/
theorem collect_cap_zero_no_request (remote : List RemoteResponse) (bs : Nat) :
    fetchCustomersWithPagination remote 0 bs =
      some { customers := [], totalCustomers := 0, error := none,
             paginationInfo :=
               { hasMore := true, totalFetched := 0, maxCustomers := 0 },
             requests := [] } := by
  rw [fetchCustomersWithPagination, fetchGo.eq_def]
  simp

/-- C4: whenever the collector reports a non-null error it also reports
an empty record list, paginationInfo.hasMore = false and zero counters —
the catch block turns every page failure into a returned result instead
of an uncaught fault; concretely, a transport error on the second page
and a query-error payload on the first page both produce exactly that
aborted result. -/
theorem collect_abort_on_page_failure :
    (∀ (remote : List RemoteResponse) (maxc bs : Nat) (r : FetchResult),
        fetchCustomersWithPagination remote maxc bs = some r →
        r.error ≠ none →
        r.customers = [] ∧ r.paginationInfo.hasMore = false ∧
          r.totalCustomers = 0 ∧ r.paginationInfo.totalFetched = 0) ∧
    (fetchCustomersWithPagination errRemote 1000 100).map
        (fun r => (r.error, r.customers, r.paginationInfo.hasMore)) =
      some (some "network down", [], false) ∧
    (fetchCustomersWithPagination [RemoteResponse.queryErrors] 1000 100).map
        (fun r => (r.error, r.customers, r.paginationInfo.hasMore)) =
      some (some "Failed to fetch segment customer data", [], false) := by
  refine ⟨?_, by decide, by decide⟩
  intro remote maxc bs r hr herr
  exact fetchGo_error maxc bs remote [] true none 0 [] r hr herr

/-- C4 witness: instantiating the abort theorem on the concrete remote
that fails on its second page. -/
theorem collect_abort_on_page_failure_witness :
    errResult.customers = [] ∧ errResult.paginationInfo.hasMore = false ∧
      errResult.totalCustomers = 0 ∧ errResult.paginationInfo.totalFetched = 0 :=
  collect_abort_on_page_failure.1 errRemote 1000 100 errResult (by decide)
    (by decide)

/-- C2 (code bug): records produced by the active collection run do not
keep the five profile attributes as defined strings.  A member whose
metafields are absent yields null attributes, and a present value is
passed through untrimmed — the assembly uses value-or-null and bypasses
`sanitizeMetafieldValue`, which would have produced the trimmed string
the claim (and the repository data-handling guide) describe. -/
theorem collected_attributes_nullable :
    (fetchCustomersWithPagination c2Remote 1000 100).map
        (fun r => r.customers.map (fun c => (c.pet_type, c.pet_age))) =
      some [(JSValue.null, JSValue.null),
            (JSValue.str "  Dog  ", JSValue.null)] ∧
    (∀ s : String, JSValue.null ≠ JSValue.str s) ∧
    JSValue.str "  Dog  " ≠ JSValue.str (jsTrim "  Dog  ") ∧
    sanitizeMetafieldValue (.str "  Dog  ") = "Dog" ∧
    sanitizeMetafieldValue .undefined = "" := by
  refine ⟨by decide, ?_, by decide, by decide, rfl⟩
  intro s h
  cases h

/-- C6: the sanitizer is total and never raises: every non-string value
(null, undefined, numbers) maps to the empty string, and every string
maps to its trimmed form — in particular 42 maps to the empty string and
a padded x trims to x. -/
theorem sanitize_total_and_trims :
    (∀ v : JSValue, isString v = false → sanitizeMetafieldValue v = "") ∧
    (∀ s : String, sanitizeMetafieldValue (.str s) = jsTrim s) ∧
    sanitizeMetafieldValue .null = "" ∧
    sanitizeMetafieldValue .undefined = "" ∧
    sanitizeMetafieldValue (.num 42) = "" ∧
    sanitizeMetafieldValue (.str "  x ") = "x" := by
  refine ⟨?_, ?_, rfl, rfl, rfl, by decide⟩
  · intro v hv
    cases v with
    | str s => simp [isString] at hv
    | null => rfl
    | undefined => rfl
    | num n => simp [sanitizeMetafieldValue, isString]
    | bool b => simp [sanitizeMetafieldValue, isString]
  · intro s
    by_cases hs : s = ""
    · subst hs; rfl
    · simp [sanitizeMetafieldValue, jsTruthy, isString, hs]

/-- C6 witness: instantiating the sanitizer theorem on the number 42 and
on the concrete null value. -/
theorem sanitize_total_and_trims_witness :
    sanitizeMetafieldValue (.num 42) = "" ∧
    sanitizeMetafieldValue (.str "  x ") = jsTrim "  x " :=
  ⟨sanitize_total_and_trims.1 (.num 42) rfl,
   sanitize_total_and_trims.2.1 "  x "⟩

/-- C10: for every input that is not a non-empty string — null,
undefined, a number, the empty string — the GID extractor returns the
empty string rather than throwing or echoing the input; string inputs
always produce a string result, illustrated on the documented formats
and the no-digit fallback. -/
theorem extractId_guard_returns_empty :
    (∀ v : JSValue, (jsTruthy v && isString v) = false →
        extractIdFromGid v = "") ∧
    extractIdFromGid .null = "" ∧
    extractIdFromGid .undefined = "" ∧
    extractIdFromGid (.num 42) = "" ∧
    extractIdFromGid (.str "") = "" ∧
    extractIdFromGid (.str "gid://shopify/Customer/123456789") = "123456789" ∧
    extractIdFromGid (.str "gid://shopify/CustomerSegmentMember/8483087548635") =
      "8483087548635" ∧
    extractIdFromGid (.str "abc") = "abc" := by
  refine ⟨?_, rfl, rfl, by decide, by decide, by decide, by decide, by decide⟩
  intro v hv
  cases v with
  | str s =>
      have hs : s = "" := by
        simpa [jsTruthy, isString] using hv
      subst hs
      decide
  | null => rfl
  | undefined => rfl
  | num n => simp [extractIdFromGid, isString]
  | bool b => simp [extractIdFromGid, isString]

/-- C10 witness: instantiating the guard theorem on the number 42. -/
theorem extractId_guard_returns_empty_witness :
    extractIdFromGid (.num 42) = "" :=
  extractId_guard_returns_empty.1 (.num 42) rfl

/-- C7: for a record whose five profile attributes are strings, the
completeness score is defined, lies in 0..100, and the complete
classification holds exactly when the score is 100 — both functions read
the same five-field checklist. -/
theorem scorer_range_and_complete_iff (c : Customer)
    (h : ∀ v ∈ profileValues c, isString v = true) :
    ∃ n, getProfileCompleteness c = some n ∧ n ≤ 100 ∧
      (isCompleteProfile c = some true ↔ n = 100) := by
  obtain ⟨k, hk, hkle, hiff⟩ := countCompleted_strings (profileValues c) h
  have hlen : (profileValues c).length = 5 := rfl
  rw [hlen] at hkle hiff
  refine ⟨jsRoundPctOf5 k, ?_, ?_, ?_⟩
  · rw [getProfileCompleteness, hk]
    rfl
  · unfold jsRoundPctOf5
    omega
  · rw [isCompleteProfile, hiff]
    unfold jsRoundPctOf5
    omega

/-- C7 witness: instantiating the scorer theorem on a record with all
five attributes set to non-blank strings. -/
theorem scorer_range_and_complete_iff_witness :
    ∃ n, getProfileCompleteness fullCustomer = some n ∧ n ≤ 100 ∧
      (isCompleteProfile fullCustomer = some true ↔ n = 100) :=
  scorer_range_and_complete_iff fullCustomer (by decide)

/-- C8 (counterexample): on the empty record list the aggregator returns
empty lists for every dimension, so the fixed age, weight and species
categories are not included at count zero, contrary to the claim as
stated for every list of records. -/
theorem aggregate_empty_input_omits_fixed_categories :
    (generateDimensionData []).pet_age = [] ∧
    (generateDimensionData []).pet_weight = [] ∧
    (generateDimensionData []).pet_type = [] ∧
    (generateDimensionData []).pet_age.map DimEntry.name ≠
      ["1-6", "7-12", "13-20"] := by
  refine ⟨rfl, rfl, rfl, by decide⟩

/-- C8 (amended): for every non-empty record list the aggregator always
emits the three fixed age, weight and species categories (even at count
zero), while every emitted drug-usage or stress-level category has a
strictly positive count — zero-match categories are omitted there. -/
theorem aggregate_fixed_vs_filtered_categories (cs : List Customer)
    (h : cs ≠ []) :
    (generateDimensionData cs).pet_age.map DimEntry.name =
      ["1-6", "7-12", "13-20"] ∧
    (generateDimensionData cs).pet_weight.map DimEntry.name =
      ["Under 20lbs", "20-50lbs", "50+lbs"] ∧
    (generateDimensionData cs).pet_type.map DimEntry.name =
      ["Dog", "Cat", "Small Animal"] ∧
    (∀ d ∈ (generateDimensionData cs).drug_usage, 0 < d.customers) ∧
    (∀ d ∈ (generateDimensionData cs).stress_level, 0 < d.customers) := by
  have hlen : ¬ cs.length = 0 := fun h0 => h (List.length_eq_zero.mp h0)
  rw [generateDimensionData, if_neg hlen]
  refine ⟨rfl, rfl, rfl, ?_, ?_⟩
  · intro d hd
    simp only [drugUsageData, List.mem_filter] at hd
    exact of_decide_eq_true hd.2
  · intro d hd
    simp only [stressLevelData, List.mem_filter] at hd
    exact of_decide_eq_true hd.2

/-- C8 witness: instantiating the amended aggregator theorem on a
one-record list. -/
theorem aggregate_fixed_vs_filtered_categories_witness :
    (generateDimensionData [recA]).pet_age.map DimEntry.name =
      ["1-6", "7-12", "13-20"] ∧
    (generateDimensionData [recA]).pet_weight.map DimEntry.name =
      ["Under 20lbs", "20-50lbs", "50+lbs"] ∧
    (generateDimensionData [recA]).pet_type.map DimEntry.name =
      ["Dog", "Cat", "Small Animal"] ∧
    (∀ d ∈ (generateDimensionData [recA]).drug_usage, 0 < d.customers) ∧
    (∀ d ∈ (generateDimensionData [recA]).stress_level, 0 < d.customers) :=
  aggregate_fixed_vs_filtered_categories [recA] (by decide)

/-- C9: the Allergies category matches by case-insensitive substring — a
record with drug usage Seasonal ALLERGIES flare is counted under it and
is the only emitted drug-usage entry — while allergy (no substring hit)
and anxiety (wrong case for the exact-equality categories) contribute to
no drug-usage category at all. -/
theorem allergies_substring_vs_exact_match :
    (generateDimensionData [recA]).drug_usage =
      [{ name := "Allergies", customers := 1 }] ∧
    (generateDimensionData [recB]).drug_usage = [] ∧
    (generateDimensionData [recC]).drug_usage = [] ∧
    allergiesHit (.str "Seasonal ALLERGIES flare") = true ∧
    allergiesHit (.str "allergy") = false ∧
    strictEq (.str "anxiety") "Anxiety" = false ∧
    strictEq (.str "Anxiety") "Anxiety" = true := by
  refine ⟨by decide, by decide, by decide, by decide, by decide, by decide,
    by decide⟩
